import Mathlib

/-!
Verification of the real-estate CRM backend core (auth, sessions, referral
codes, lead intake) against its natural-language specification.

The TypeScript sources are shallowly embedded: pure helpers become Lean
functions, route handlers become functions from an explicit database state
and request data to a response together with the resulting database state.
Randomness (crypto.randomInt, generated ids) is passed in as parameters.
Machine concerns (bcrypt internals, JWT string encoding) are modelled by
injective constructors carrying the data the code actually inspects.
-/

namespace RealEstateCRM

/-- User roles, from src/types/index.ts enum UserRole
(values admin, builder, channel_partner, customer). -/
inductive Role
  | admin
  | builder
  | channel_partner
  | customer
deriving DecidableEq

/-- JWT claim shape signed by the backend: interface JWTPayload of
src/lib/jwt.ts with fields userId, email, role. -/
structure JWTPayload where
  userId : String
  email : String
  role : Role
deriving DecidableEq

/-- Module-level signing secret of src/lib/jwt.ts (JWT_SECRET, read from the
environment with a hard-coded fallback; a single constant shared by every
sign and verify call). -/
def JWT_SECRET : String := "fallback-secret-change-in-production"

/-- Model of a token string. A well-formed JWT is its payload, the secret it
was signed with and its absolute expiry instant (seconds); any other string
is carried verbatim by the second constructor and fails verification, the
way jwt.verify throws on malformed input. -/
inductive TokenStr
  | jwt (payload : JWTPayload) (secret : String) (exp : Nat)
  | raw (s : String)
deriving DecidableEq

/-- ACCESS_TOKEN_EXPIRY = 15m, in seconds. -/
def ACCESS_TOKEN_EXPIRY : Nat := 15 * 60

/-- REFRESH_TOKEN_EXPIRY = 7d, in seconds. -/
def REFRESH_TOKEN_EXPIRY : Nat := 7 * 24 * 60 * 60

/-- generateAccessToken of src/lib/jwt.ts: jwt.sign(payload, JWT_SECRET,
expiresIn 15m). now is the signing instant in seconds. -/
def generateAccessToken (now : Nat) (payload : JWTPayload) : TokenStr :=
  .jwt payload JWT_SECRET (now + ACCESS_TOKEN_EXPIRY)

/-- generateRefreshToken of src/lib/jwt.ts: jwt.sign(payload, JWT_SECRET,
expiresIn 7d). -/
def generateRefreshToken (now : Nat) (payload : JWTPayload) : TokenStr :=
  .jwt payload JWT_SECRET (now + REFRESH_TOKEN_EXPIRY)

/-- verifyAccessToken of src/lib/jwt.ts: jwt.verify(token, JWT_SECRET),
returning null instead of throwing. A token verifies when it was signed
with JWT_SECRET and has not expired (jsonwebtoken rejects once the clock
reaches exp). -/
def verifyAccessToken (now : Nat) (token : TokenStr) : Option JWTPayload :=
  match token with
  | .jwt payload secret exp =>
      if secret = JWT_SECRET ∧ now < exp then some payload else none
  | .raw _ => none

/-- verifyRefreshToken of src/lib/jwt.ts: textually identical body to
verifyAccessToken, same JWT_SECRET, no token-type claim. -/
def verifyRefreshToken (now : Nat) (token : TokenStr) : Option JWTPayload :=
  match token with
  | .jwt payload secret exp =>
      if secret = JWT_SECRET ∧ now < exp then some payload else none
  | .raw _ => none

/-- Model of bcrypt.hash(password, 12) from src/lib/password.ts: an
injective, non-identity tagging of the plaintext; the code only ever feeds
hashes back into verifyPassword. -/
def hashPassword (password : String) : String :=
  "bcrypt-2b-12-" ++ password

/-- Model of bcrypt.compare from src/lib/password.ts: succeeds exactly when
the hash was produced from this plaintext. -/
def verifyPassword (password hash : String) : Bool :=
  hash == hashPassword password

/-- Result shape of validatePasswordStrength: { valid, message? }. -/
structure PwCheck where
  valid : Bool
  message : Option String
deriving DecidableEq

/-- The regex test /[A-Z]/.test(password). -/
def hasUpperCase (s : String) : Bool :=
  s.any fun c => 'A' ≤ c && c ≤ 'Z'

/-- The regex test /[a-z]/.test(password). -/
def hasLowerCase (s : String) : Bool :=
  s.any fun c => 'a' ≤ c && c ≤ 'z'

/-- The regex test /[0-9]/.test(password). -/
def hasNumber (s : String) : Bool :=
  s.any fun c => '0' ≤ c && c ≤ '9'

/-- validatePasswordStrength of src/lib/password.ts, clause for clause:
too short, then too long, then the three character-class tests sharing one
message, else valid. -/
def validatePasswordStrength (password : String) : PwCheck :=
  if password.length < 8 then
    ⟨false, some "Password must be at least 8 characters"⟩
  else if password.length > 128 then
    ⟨false, some "Password must not exceed 128 characters"⟩
  else if !hasUpperCase password || !hasLowerCase password || !hasNumber password then
    ⟨false, some "Password must contain at least one uppercase letter, one lowercase letter, and one number"⟩
  else
    ⟨true, none⟩

/-- The initials computation inside generateReferralCode of
src/lib/referralCode.ts: fullName.split(' ') — keeping empty fragments the
way the JS split does — then charAt(0) of each word (empty for an empty
word), toUpperCase, join, slice(0, 3). Char.toUpper models toUpperCase on
the ASCII letters the format invariant is about. -/
def initialsOf (fullName : String) : List Char :=
  (((fullName.split (· = ' ')).map fun w => (w.toList.take 1).map Char.toUpper).flatten).take 3

/-- generateReferralCode of src/lib/referralCode.ts. randomDigits stands for
the draw crypto.randomInt(100000, 999999) — an integer r with
100000 ≤ r < 999999 (the upper bound of randomInt is exclusive) — and
Nat.repr is its decimal toString. -/
def generateReferralCode (fullName : String) (randomDigits : Nat) : String :=
  ⟨initialsOf fullName⟩ ++ Nat.repr randomDigits

/-- A character the regex class [A-Z] accepts. -/
def isUpperAlpha (c : Char) : Bool :=
  'A' ≤ c && c ≤ 'Z'

/-- A character the regex class [0-9] accepts. -/
def isDigitChar (c : Char) : Bool :=
  '0' ≤ c && c ≤ '9'

/-- The spec format invariant regex for referral codes,
stated over a string: up to three uppercase letters followed by exactly six
digits, consuming the whole string. Letters and digits are disjoint, so the
greedy decomposition below is the unique one. -/
def matchesReferralFormat (s : String) : Bool :=
  let cs := s.toList
  let letters := cs.takeWhile isUpperAlpha
  let rest := cs.dropWhile isUpperAlpha
  decide (letters.length ≤ 3) && (rest.length == 6) && rest.all isDigitChar

/-- A row of the users table (src/db/schema.ts), restricted to the columns
the verified handlers read or write. Timestamps are seconds. -/
structure User where
  id : String
  email : String
  passwordHash : String
  fullName : String
  phone : Option String
  role : Role
  referralCode : Option String
  isActive : Bool
  emailVerified : Bool
  lastLoginAt : Option Nat
deriving DecidableEq

/-- A row of the sessions table: the stored token is the signed refresh JWT
itself (the lookup key of /refresh and logout). -/
structure Session where
  id : String
  userId : String
  token : TokenStr
  expiresAt : Nat
  ipAddress : Option String
  userAgent : Option String
deriving DecidableEq

/-- A row of the channelPartners table (the Agent record paired with a
channel-partner user; performanceMetrics is never read by these handlers). -/
structure ChannelPartnerRec where
  id : String
  userId : String
  status : String
deriving DecidableEq

/-- The jsonb metadata object the public lead intake writes:
{ referralCode?, channelPartnerUserId?, submittedFrom }. -/
structure LeadMetadata where
  referralCode : Option String
  channelPartnerUserId : Option String
  submittedFrom : String
deriving DecidableEq

/-- A row of the leads table, restricted to the columns the verified
handlers touch. budget is stored as its decimal string, as in the code
(body.budget?.toString()). -/
structure Lead where
  id : String
  name : String
  email : Option String
  phone : String
  status : String
  source : String
  assignedChannelPartnerId : Option String
  budget : Option String
  notes : Option String
  metadata : Option LeadMetadata
  createdAt : Nat
deriving DecidableEq

/-- The database state the verified handlers read and write. -/
structure DB where
  users : List User
  sessions : List Session
  channelPartners : List ChannelPartnerRec
  leads : List Lead
deriving DecidableEq

/-- Error payload of the response envelope: { code, message }. -/
structure ErrBody where
  code : String
  message : String
deriving DecidableEq

/-- A Set-Cookie emitted by a handler (name, token value, maxAge seconds). -/
structure Cookie where
  name : String
  value : TokenStr
  maxAge : Nat
deriving DecidableEq

/-- JavaScript truthiness of an optional string: undefined and the empty
string are falsy. This is the test `if (body.referralCode)` and the
left operand treatment of `x || null`. -/
def jsTruthy (o : Option String) : Bool :=
  match o with
  | none => false
  | some s => !(s == "")

/-- The JS idiom `x || null` on an optional string: a falsy value (absent or
empty) collapses to null. -/
def orNull (o : Option String) : Option String :=
  if jsTruthy o then o else none

/-- db.select().from(users).where(eq(users.email, e)).limit(1). -/
def findUserByEmail (db : DB) (email : String) : Option User :=
  db.users.find? fun u => u.email == email

/-- db.select().from(users).where(eq(users.id, i)).limit(1). -/
def findUserById (db : DB) (id : String) : Option User :=
  db.users.find? fun u => u.id == id

/-- db.select().from(sessions).where(eq(sessions.token, t)).limit(1). -/
def findSessionByToken (db : DB) (t : TokenStr) : Option Session :=
  db.sessions.find? fun s => s.token == t

/-- db.select().from(channelPartners).where(eq(channelPartners.userId, uid)).limit(1). -/
def findChannelPartnerByUserId (db : DB) (uid : String) : Option ChannelPartnerRec :=
  db.channelPartners.find? fun r => r.userId == uid

/-- Outcome of POST /auth/refresh (src/routes/auth.ts): either 200 with the
fresh access token and success message, or an error status with its body. -/
inductive RefreshResp
  | ok (accessToken : TokenStr) (message : String)
  | err (status : Nat) (e : ErrBody)
deriving DecidableEq

/-- HTTP status of a refresh response (c.json defaults to 200 on success). -/
def RefreshResp.status : RefreshResp → Nat
  | .ok _ _ => 200
  | .err s _ => s

/-- Full effect of one POST /auth/refresh request: response, resulting
database, cookies set. -/
structure RefreshResult where
  resp : RefreshResp
  db : DB
  cookies : List Cookie
deriving DecidableEq

/-- POST /auth/refresh handler of src/routes/auth.ts: read the refreshToken
cookie (NO_REFRESH_TOKEN when absent), verify it (INVALID_REFRESH_TOKEN),
look the exact token value up among the session rows (SESSION_NOT_FOUND),
then mint a new access token from the verified claims and set only the
accessToken cookie. The handler performs no insert, update or delete. -/
def refreshHandler (db : DB) (now : Nat) (refreshCookie : Option TokenStr) :
    RefreshResult :=
  match refreshCookie with
  | none =>
      ⟨.err 401 ⟨"NO_REFRESH_TOKEN", "Refresh token not found"⟩, db, []⟩
  | some refreshToken =>
      match verifyRefreshToken now refreshToken with
      | none =>
          ⟨.err 401 ⟨"INVALID_REFRESH_TOKEN", "Invalid or expired refresh token"⟩, db, []⟩
      | some payload =>
          match findSessionByToken db refreshToken with
          | none =>
              ⟨.err 401 ⟨"SESSION_NOT_FOUND", "Session not found"⟩, db, []⟩
          | some _ =>
              let newAccessToken := generateAccessToken now
                ⟨payload.userId, payload.email, payload.role⟩
              ⟨.ok newAccessToken "Token refreshed successfully",
               db,
               [⟨"accessToken", newAccessToken, ACCESS_TOKEN_EXPIRY⟩]⟩

/-- POST /auth/logout handler of src/routes/auth.ts: when a refreshToken
cookie is present, delete every session row storing that exact token; always
answer 200. (Cookie clearing is not modelled; no claim depends on it.) -/
def logoutHandler (db : DB) (refreshCookie : Option TokenStr) : DB :=
  match refreshCookie with
  | none => db
  | some refreshToken =>
      { db with sessions := db.sessions.filter fun s => !(s.token == refreshToken) }

/-- The user projection returned by login and GET /session
(id, email, fullName, phone, role, emailVerified, referralCode). -/
structure UserView where
  id : String
  email : String
  fullName : String
  phone : Option String
  role : Role
  emailVerified : Bool
  referralCode : Option String
deriving DecidableEq

/-- Projection a user row to the login / session response shape. -/
def toUserView (u : User) : UserView :=
  ⟨u.id, u.email, u.fullName, u.phone, u.role, u.emailVerified, u.referralCode⟩

/-- Outcome of POST /auth/login. -/
inductive LoginResp
  | ok (user : UserView) (accessToken : TokenStr) (message : String)
  | err (status : Nat) (e : ErrBody)
deriving DecidableEq

/-- HTTP status of a login response. -/
def LoginResp.status : LoginResp → Nat
  | .ok _ _ _ => 200
  | .err s _ => s

/-- Full effect of one POST /auth/login request. -/
structure LoginResult where
  resp : LoginResp
  db : DB
  cookies : List Cookie
deriving DecidableEq

/-- POST /auth/login handler of src/routes/auth.ts: find the user by email
(INVALID_CREDENTIALS when absent), verify the password against the stored
hash (the same INVALID_CREDENTIALS body), reject disabled accounts
(ACCOUNT_DISABLED 403), then mint both tokens, insert a session row bound
to the refresh token, stamp lastLoginAt and set both cookies. sessionId
stands for the generateRandomToken() draw. -/
def loginHandler (db : DB) (now : Nat) (email password : String)
    (sessionId : String) (ip userAgent : Option String) : LoginResult :=
  match findUserByEmail db email with
  | none =>
      ⟨.err 401 ⟨"INVALID_CREDENTIALS", "Invalid email or password"⟩, db, []⟩
  | some user =>
      if !(verifyPassword password user.passwordHash) then
        ⟨.err 401 ⟨"INVALID_CREDENTIALS", "Invalid email or password"⟩, db, []⟩
      else if !user.isActive then
        ⟨.err 403 ⟨"ACCOUNT_DISABLED", "Your account has been disabled"⟩, db, []⟩
      else
        let payload : JWTPayload := ⟨user.id, user.email, user.role⟩
        let accessToken := generateAccessToken now payload
        let refreshToken := generateRefreshToken now payload
        let newSession : Session :=
          ⟨sessionId, user.id, refreshToken, now + REFRESH_TOKEN_EXPIRY, ip, userAgent⟩
        let db1 : DB :=
          { db with
              sessions := db.sessions ++ [newSession]
              users := db.users.map fun u =>
                if u.id == user.id then { u with lastLoginAt := some now } else u }
        ⟨.ok (toUserView user) accessToken "Login successful",
         db1,
         [⟨"accessToken", accessToken, ACCESS_TOKEN_EXPIRY⟩,
          ⟨"refreshToken", refreshToken, REFRESH_TOKEN_EXPIRY⟩]⟩

/-- One field value of the JSON user object returned by signup. -/
inductive FieldVal
  | s (v : String)
  | os (v : Option String)
  | r (v : Role)
  | b (v : Bool)
deriving DecidableEq

/-- The user object literal of the 201 signup response in
src/routes/auth.ts: exactly the six fields id, email, fullName, phone,
role, emailVerified, in source order. -/
def signupUserProjection (u : User) : List (String × FieldVal) :=
  [("id", .s u.id), ("email", .s u.email), ("fullName", .s u.fullName),
   ("phone", .os u.phone), ("role", .r u.role), ("emailVerified", .b u.emailVerified)]

/-- Outcome of POST /auth/signup. -/
inductive SignupResp
  | created (user : List (String × FieldVal)) (accessToken : TokenStr) (message : String)
  | err (status : Nat) (e : ErrBody)
deriving DecidableEq

/-- HTTP status of a signup response (c.json(..., 201) on success). -/
def SignupResp.status : SignupResp → Nat
  | .created _ _ _ => 201
  | .err s _ => s

/-- Full effect of one POST /auth/signup request. -/
structure SignupResult where
  resp : SignupResp
  db : DB
  cookies : List Cookie
deriving DecidableEq

/-- Request body of POST /auth/signup (signupSchema). -/
structure SignupBody where
  email : String
  password : String
  fullName : String
  phone : Option String
  role : Option Role
deriving DecidableEq

/-- The referral-code collision loop of the signup handler: start from the
first generated code; while attempts < 5, if some user row already holds
the current code, regenerate and count an attempt, else keep it. cand k is
the k-th random draw fed to generateReferralCode. -/
def pickReferralCode (usersL : List User) (fullName : String) (cand : Nat → Nat) :
    String :=
  go 0 (generateReferralCode fullName (cand 0))
where
  go (attempts : Nat) (code : String) : String :=
    if h : attempts < 5 then
      if usersL.any fun u => u.referralCode == some code then
        go (attempts + 1) (generateReferralCode fullName (cand (attempts + 1)))
      else code
    else code
  termination_by 5 - attempts

/-- The user row the signup insert creates: hashed password, phone with the
`|| null` collapse, role defaulting to channel_partner, a referral code
exactly when the explicit or defaulted role is channel_partner (the test
`body.role === CHANNEL_PARTNER || !body.role`), emailVerified false,
isActive true. -/
def signupNewUser (db : DB) (body : SignupBody) (cand : Nat → Nat)
    (newUserId : String) : User :=
  let isChannelPartner : Bool :=
    body.role == some Role.channel_partner || body.role == none
  { id := newUserId
    email := body.email
    passwordHash := hashPassword body.password
    fullName := body.fullName
    phone := orNull body.phone
    role := body.role.getD Role.channel_partner
    referralCode :=
      if isChannelPartner then some (pickReferralCode db.users body.fullName cand)
      else none
    isActive := true
    emailVerified := false
    lastLoginAt := none }

/-- POST /auth/signup handler of src/routes/auth.ts: password strength
(WEAK_PASSWORD), duplicate email (EMAIL_EXISTS), hash, referral code for
channel partners (role explicitly channel_partner or absent), insert the
user row, auto-create the paired channelPartners row for channel partners,
mint tokens, insert the session row, set both cookies and answer 201 with
the six-field projection and the access token. newUserId, cpRecId and
sessionId stand for the generated ids, cand for the randomInt draws. -/
def signupHandler (db : DB) (now : Nat) (body : SignupBody)
    (cand : Nat → Nat) (newUserId cpRecId sessionId : String)
    (ip userAgent : Option String) : SignupResult :=
  let passwordCheck := validatePasswordStrength body.password
  if !passwordCheck.valid then
    ⟨.err 400 ⟨"WEAK_PASSWORD", passwordCheck.message.getD ""⟩, db, []⟩
  else if (findUserByEmail db body.email).isSome then
    ⟨.err 400 ⟨"EMAIL_EXISTS", "An account with this email already exists"⟩, db, []⟩
  else
    let newUser : User := signupNewUser db body cand newUserId
    let db1 : DB := { db with users := db.users ++ [newUser] }
    let db2 : DB :=
      if (body.role.getD Role.channel_partner) == Role.channel_partner then
        { db1 with channelPartners :=
            db1.channelPartners ++ [⟨cpRecId, newUser.id, "active"⟩] }
      else db1
    let payload : JWTPayload := ⟨newUser.id, newUser.email, newUser.role⟩
    let accessToken := generateAccessToken now payload
    let refreshToken := generateRefreshToken now payload
    let newSession : Session :=
      ⟨sessionId, newUser.id, refreshToken, now + REFRESH_TOKEN_EXPIRY, ip, userAgent⟩
    let db3 : DB := { db2 with sessions := db2.sessions ++ [newSession] }
    ⟨.created (signupUserProjection newUser) accessToken "Account created successfully!",
     db3,
     [⟨"accessToken", accessToken, ACCESS_TOKEN_EXPIRY⟩,
      ⟨"refreshToken", refreshToken, REFRESH_TOKEN_EXPIRY⟩]⟩

/-- The identity requireAuth attaches to the request context:
{ id, email, role, emailVerified }. -/
structure AuthedUser where
  id : String
  email : String
  role : Role
  emailVerified : Bool
deriving DecidableEq

/-- Outcome of the requireAuth middleware (src/middleware/requireAuth.ts):
either the attached identity, or the 401 it answers with. -/
inductive AuthOutcome
  | ok (user : AuthedUser)
  | err (status : Nat) (e : ErrBody)
deriving DecidableEq

/-- requireAuth of src/middleware/requireAuth.ts: read the accessToken
cookie (UNAUTHORIZED when absent), verifyAccessToken (INVALID_TOKEN),
re-fetch the user row by the payload userId and reject a missing or
inactive user (UNAUTHORIZED), else attach the identity. -/
def requireAuth (db : DB) (now : Nat) (accessCookie : Option TokenStr) :
    AuthOutcome :=
  match accessCookie with
  | none => .err 401 ⟨"UNAUTHORIZED", "Authentication required"⟩
  | some accessToken =>
      match verifyAccessToken now accessToken with
      | none => .err 401 ⟨"INVALID_TOKEN", "Invalid or expired token"⟩
      | some payload =>
          match findUserById db payload.userId with
          | none => .err 401 ⟨"UNAUTHORIZED", "User not found or inactive"⟩
          | some user =>
              if !user.isActive then
                .err 401 ⟨"UNAUTHORIZED", "User not found or inactive"⟩
              else
                .ok ⟨user.id, user.email, user.role, user.emailVerified⟩

/-- Outcome of GET /auth/session. -/
inductive SessionResp
  | ok (user : UserView)
  | err (status : Nat) (e : ErrBody)
deriving DecidableEq

/-- HTTP status of a GET /auth/session response. -/
def SessionResp.status : SessionResp → Nat
  | .ok _ => 200
  | .err s _ => s

/-- GET /auth/session handler of src/routes/auth.ts: read the accessToken
cookie (UNAUTHORIZED when absent); the code verifies it with
verifyRefreshToken (INVALID_TOKEN on failure); re-fetch the user row
(USER_NOT_FOUND 404) and return the fresh projection. -/
def getSessionHandler (db : DB) (now : Nat) (accessCookie : Option TokenStr) :
    SessionResp :=
  match accessCookie with
  | none => .err 401 ⟨"UNAUTHORIZED", "Not authenticated"⟩
  | some accessToken =>
      match verifyRefreshToken now accessToken with
      | none => .err 401 ⟨"INVALID_TOKEN", "Invalid or expired token"⟩
      | some payload =>
          match findUserById db payload.userId with
          | none => .err 404 ⟨"USER_NOT_FOUND", "User not found"⟩
          | some user => .ok (toUserView user)

/-- Request body of PUT /auth/password (changePasswordSchema). -/
structure ChangePasswordBody where
  currentPassword : String
  newPassword : String
deriving DecidableEq

/-- Outcome of PUT /auth/password. -/
inductive ChangePwResp
  | ok (message : String)
  | err (status : Nat) (e : ErrBody)
deriving DecidableEq

/-- HTTP status of a PUT /auth/password response. -/
def ChangePwResp.status : ChangePwResp → Nat
  | .ok _ => 200
  | .err s _ => s

/-- Full effect of one PUT /auth/password request. -/
structure ChangePwResult where
  resp : ChangePwResp
  db : DB
deriving DecidableEq

/-- PUT /auth/password handler of src/routes/auth.ts, entered with the
identity requireAuth attached: re-fetch the user row (USER_NOT_FOUND 404),
verify the current password (INVALID_PASSWORD 400), validate the new
password strength (WEAK_PASSWORD 400), persist the new hash, and then —
only inside `if (refreshToken)`, i.e. only when the request carries a
refreshToken cookie — delete every session row whose userId is the
caller's (the where clause is just eq(sessions.userId, user.id)). -/
def changePasswordHandler (db : DB) (user : AuthedUser)
    (body : ChangePasswordBody) (refreshCookie : Option TokenStr) :
    ChangePwResult :=
  match findUserById db user.id with
  | none => ⟨.err 404 ⟨"USER_NOT_FOUND", "User not found"⟩, db⟩
  | some dbUser =>
      if !(verifyPassword body.currentPassword dbUser.passwordHash) then
        ⟨.err 400 ⟨"INVALID_PASSWORD", "Current password is incorrect"⟩, db⟩
      else
        let passwordValidation := validatePasswordStrength body.newPassword
        if !passwordValidation.valid then
          ⟨.err 400 ⟨"WEAK_PASSWORD",
              passwordValidation.message.getD "Password is too weak"⟩, db⟩
        else
          let db1 : DB :=
            { db with users := db.users.map fun u =>
                if u.id == user.id then
                  { u with passwordHash := hashPassword body.newPassword }
                else u }
          let db2 : DB :=
            match refreshCookie with
            | some _ =>
                { db1 with sessions :=
                    db1.sessions.filter fun s => !(s.userId == user.id) }
            | none => db1
          ⟨.ok "Password changed successfully", db2⟩

/-- Request body of POST /leads/public (createLeadSchema of
src/routes/leads.ts). budget is z.number(); projectInterest is accepted but
never used by the handler. -/
structure LeadBody where
  name : String
  email : Option String
  phone : String
  referralCode : Option String
  budget : Option Nat
  notes : Option String
deriving DecidableEq

/-- Outcome of POST /leads/public. -/
inductive LeadSubmitResp
  | created (lead : Lead) (message : String)
  | err (status : Nat) (e : ErrBody)
deriving DecidableEq

/-- HTTP status of a POST /leads/public response. -/
def LeadSubmitResp.status : LeadSubmitResp → Nat
  | .created _ _ => 201
  | .err s _ => s

/-- Full effect of one POST /leads/public request. -/
structure LeadSubmitResult where
  resp : LeadSubmitResp
  db : DB
deriving DecidableEq

/-- The users-table lookup of the public lead intake: an active user with
role channel_partner holding exactly the uppercased code. -/
def findPartnerByCode (db : DB) (codeUpper : String) : Option User :=
  db.users.find? fun u =>
    u.referralCode == some codeUpper && u.role == Role.channel_partner && u.isActive

/-- The lead row the public intake inserts, given the resolved assignment
and partner user id (both null when no referral applies), mirroring the
values literal of the insert: status new, source referral exactly when the
referralCode field is truthy, `|| null` collapses on email, notes and the
assignment, and metadata only when a referral code or a partner resolved. -/
def buildPublicLead (newLeadId : String) (now : Nat) (body : LeadBody)
    (assignedChannelPartnerId channelPartnerUserId : Option String) : Lead :=
  { id := newLeadId
    name := body.name
    email := orNull body.email
    phone := body.phone
    status := "new"
    source := if jsTruthy body.referralCode then "referral" else "website"
    assignedChannelPartnerId := orNull assignedChannelPartnerId
    budget := orNull (body.budget.map Nat.repr)
    notes := orNull body.notes
    metadata :=
      if jsTruthy body.referralCode || channelPartnerUserId.isSome then
        some ⟨if jsTruthy body.referralCode then body.referralCode else none,
              channelPartnerUserId, "website"⟩
      else none
    createdAt := now }

/-- POST /leads/public handler of src/routes/leads.ts: when the
referralCode field is truthy, uppercase it and look up an active
channel-partner user holding it (INVALID_REFERRAL_CODE 400 when none);
resolve that user's channelPartners row, and when it exists take its id as
the assignment and remember the partner user id; finally insert the lead
and answer 201. -/
def leadPublicHandler (db : DB) (newLeadId : String) (now : Nat)
    (body : LeadBody) : LeadSubmitResult :=
  if jsTruthy body.referralCode then
    let codeUpper := (body.referralCode.getD "").toUpper
    match findPartnerByCode db codeUpper with
    | none =>
        ⟨.err 400 ⟨"INVALID_REFERRAL_CODE", "Invalid or inactive referral code"⟩, db⟩
    | some channelPartnerUser =>
        let assignment :=
          match findChannelPartnerByUserId db channelPartnerUser.id with
          | some channelPartnerRecord =>
              (some channelPartnerRecord.id, some channelPartnerUser.id)
          | none => (none, none)
        let newLead := buildPublicLead newLeadId now body assignment.1 assignment.2
        ⟨.created newLead
            "Lead submitted successfully! Your channel partner will contact you soon.",
         { db with leads := db.leads ++ [newLead] }⟩
  else
    let newLead := buildPublicLead newLeadId now body none none
    ⟨.created newLead "Lead submitted successfully! We will contact you soon.",
     { db with leads := db.leads ++ [newLead] }⟩

/-- Outcome of GET /leads. -/
inductive LeadsListResp
  | ok (leads : List Lead) (total : Nat)
  | err (status : Nat) (e : ErrBody)
deriving DecidableEq

/-- HTTP status of a GET /leads response. -/
def LeadsListResp.status : LeadsListResp → Nat
  | .ok _ _ => 200
  | .err s _ => s

/-- The comparison orderBy(desc(leads.createdAt)) sorts by. -/
def createdDesc (a b : Lead) : Prop :=
  b.createdAt ≤ a.createdAt

instance : DecidableRel createdDesc := fun a b =>
  inferInstanceAs (Decidable (b.createdAt ≤ a.createdAt))

/-- The SQL result order of select ... orderBy(desc(createdAt)): the rows,
sorted newest first. -/
def leadsByCreatedDesc (ls : List Lead) : List Lead :=
  List.insertionSort createdDesc ls

/-- GET /leads handler of src/routes/leads.ts, entered with the requireAuth
identity: a channel partner resolves their channelPartners row — answering
200 with an empty list when none exists — and receives the leads assigned
to that row, newest first; every other role receives all leads, newest
first. -/
def listLeadsHandler (db : DB) (user : AuthedUser) : LeadsListResp :=
  if user.role == Role.channel_partner then
    match findChannelPartnerByUserId db user.id with
    | none => .ok [] 0
    | some channelPartnerRecord =>
        let userLeads := leadsByCreatedDesc
          (db.leads.filter fun l =>
            l.assignedChannelPartnerId == some channelPartnerRecord.id)
        .ok userLeads userLeads.length
  else
    let allLeads := leadsByCreatedDesc db.leads
    .ok allLeads allLeads.length

/-- The digit list Nat.repr emits, written as structural recursion on the
value: the decimal digits of n, most significant first. -/
def decDigits (n : Nat) : List Char :=
  if _h : n < 10 then [Nat.digitChar n]
  else decDigits (n / 10) ++ [Nat.digitChar (n % 10)]
termination_by n
decreasing_by exact Nat.div_lt_self (by omega) (by omega)

theorem decDigits_eq_of_lt (n : Nat) (h : n < 10) :
    decDigits n = [Nat.digitChar n] := by
  rw [decDigits]
  simp [h]

theorem decDigits_eq_of_ge (n : Nat) (h : ¬ n < 10) :
    decDigits n = decDigits (n / 10) ++ [Nat.digitChar (n % 10)] := by
  rw [decDigits]
  simp [h]

theorem toDigitsCore_eq_decDigits :
    ∀ (n f : Nat) (l : List Char), n < f →
      Nat.toDigitsCore 10 f n l = decDigits n ++ l := by
  intro n
  induction n using Nat.strongRecOn with
  | ind n ih =>
    intro f l hf
    cases f with
    | zero => omega
    | succ f =>
      rw [Nat.toDigitsCore]
      by_cases h10 : n < 10
      · have hz : n / 10 = 0 := Nat.div_eq_of_lt h10
        have hm : n % 10 = n := Nat.mod_eq_of_lt h10
        simp only [hz, hm, if_true, decDigits_eq_of_lt n h10]
        simp
      · have hz : ¬ (n / 10 = 0) := by
          intro hc
          have := Nat.div_eq_of_lt (by omega : n < 10)
          omega
        simp only [hz, if_false]
        rw [ih (n / 10) (Nat.div_lt_self (by omega) (by omega)) f
              (Nat.digitChar (n % 10) :: l) (by omega)]
        rw [decDigits_eq_of_ge n h10]
        simp

theorem repr_toList (n : Nat) : (Nat.repr n).toList = decDigits n := by
  have h : Nat.toDigits 10 n = decDigits n := by
    rw [Nat.toDigits, toDigitsCore_eq_decDigits n (n+1) [] (Nat.lt_succ_self n)]
    simp
  show ((Nat.toDigits 10 n).asString).toList = decDigits n
  rw [h]
  rfl

theorem decDigits_length :
    ∀ (k n : Nat), 10 ^ k ≤ n → n < 10 ^ (k + 1) → (decDigits n).length = k + 1 := by
  intro k
  induction k with
  | zero =>
    intro n h1 h2
    rw [decDigits_eq_of_lt n (by simpa using h2)]
    rfl
  | succ k ih =>
    intro n h1 h2
    have hpow : (10:Nat) ≤ 10 ^ (k + 1) := Nat.le_self_pow (by omega) 10
    have h10 : ¬ n < 10 := by omega
    rw [decDigits_eq_of_ge n h10, List.length_append]
    have e1 : 10 ^ k ≤ n / 10 := by
      rw [Nat.le_div_iff_mul_le (by omega)]
      calc 10 ^ k * 10 = 10 ^ (k + 1) := by ring
        _ ≤ n := h1
    have e2 : n / 10 < 10 ^ (k + 1) := by
      rw [Nat.div_lt_iff_lt_mul (by omega)]
      calc n < 10 ^ (k + 1 + 1) := h2
        _ = 10 ^ (k + 1) * 10 := by ring
    rw [ih (n / 10) e1 e2]
    rfl

theorem digitChar_props (m : Nat) (h : m < 10) :
    isDigitChar (Nat.digitChar m) = true ∧ isUpperAlpha (Nat.digitChar m) = false := by
  interval_cases m <;> exact ⟨rfl, rfl⟩

theorem decDigits_all (n : Nat) :
    ∀ c ∈ decDigits n, isDigitChar c = true ∧ isUpperAlpha c = false := by
  induction n using Nat.strongRecOn with
  | ind n ih =>
    by_cases h : n < 10
    · rw [decDigits_eq_of_lt n h]
      intro c hc
      have : c = Nat.digitChar n := by simpa using hc
      subst this
      exact digitChar_props n h
    · rw [decDigits_eq_of_ge n h]
      intro c hc
      rcases List.mem_append.mp hc with h1 | h2
      · exact ih (n / 10) (Nat.div_lt_self (by omega) (by omega)) c h1
      · have : c = Nat.digitChar (n % 10) := by simpa using h2
        subst this
        exact digitChar_props _ (Nat.mod_lt _ (by omega))

theorem takeWhile_append_all (p : Char → Bool) :
    ∀ (l1 l2 : List Char), (∀ c ∈ l1, p c = true) →
      (∀ c ∈ l2.take 1, p c = false) →
      (l1 ++ l2).takeWhile p = l1 ∧ (l1 ++ l2).dropWhile p = l2 := by
  intro l1
  induction l1 with
  | nil =>
    intro l2 _ h2
    cases l2 with
    | nil => exact ⟨rfl, rfl⟩
    | cons d t =>
      have hd : p d = false := h2 d (by simp)
      simp [List.takeWhile_cons, List.dropWhile_cons, hd]
  | cons a t ih =>
    intro l2 h1 h2
    have pa : p a = true := h1 a (by simp)
    have h' := ih l2 (fun c hc => h1 c (by simp [hc])) h2
    simp [List.takeWhile_cons, List.dropWhile_cons, pa, h'.1, h'.2]



/-- C4: validatePasswordStrength returns valid exactly when the password
has length between 8 and 128 and contains an uppercase letter, a lowercase
letter and a digit; when invalid it carries one single message, chosen by
the first failing reason in the order too-short, too-long, missing
character classes. -/
theorem validatePasswordStrength_spec (p : String) :
    ((validatePasswordStrength p).valid = true ↔
      (8 ≤ p.length ∧ p.length ≤ 128 ∧ hasUpperCase p = true ∧
        hasLowerCase p = true ∧ hasNumber p = true)) ∧
    (p.length < 8 →
      validatePasswordStrength p =
        ⟨false, some "Password must be at least 8 characters"⟩) ∧
    (8 ≤ p.length → 128 < p.length →
      validatePasswordStrength p =
        ⟨false, some "Password must not exceed 128 characters"⟩) ∧
    (8 ≤ p.length → p.length ≤ 128 →
      ¬(hasUpperCase p = true ∧ hasLowerCase p = true ∧ hasNumber p = true) →
      validatePasswordStrength p =
        ⟨false, some "Password must contain at least one uppercase letter, one lowercase letter, and one number"⟩) ∧
    ((validatePasswordStrength p).valid = false →
      ∃ m, (validatePasswordStrength p).message = some m) := by
  unfold validatePasswordStrength
  split_ifs with h1 h2 h3
  · exact ⟨iff_of_false (by simp) (fun hx => absurd hx.1 (by omega)),
      fun _ => rfl,
      fun ha _ => absurd h1 (by omega),
      fun ha _ _ => absurd h1 (by omega),
      fun _ => ⟨_, rfl⟩⟩
  · exact ⟨iff_of_false (by simp) (fun hx => absurd hx.2.1 (by omega)),
      fun hlt => absurd hlt h1,
      fun _ _ => rfl,
      fun _ hle _ => absurd h2 (by omega),
      fun _ => ⟨_, rfl⟩⟩
  · exact ⟨iff_of_false (by simp)
        (fun hx => by simp [hx.2.2.1, hx.2.2.2.1, hx.2.2.2.2] at h3),
      fun hlt => absurd hlt h1,
      fun _ hgt => absurd hgt h2,
      fun _ _ _ => rfl,
      fun _ => ⟨_, rfl⟩⟩
  · simp only [Bool.or_eq_true, Bool.not_eq_true', not_or] at h3
    have hup : hasUpperCase p = true := by
      rcases Bool.eq_false_or_eq_true (hasUpperCase p) with h | h
      · exact h
      · exact absurd h h3.1.1
    have hlow : hasLowerCase p = true := by
      rcases Bool.eq_false_or_eq_true (hasLowerCase p) with h | h
      · exact h
      · exact absurd h h3.1.2
    have hnum : hasNumber p = true := by
      rcases Bool.eq_false_or_eq_true (hasNumber p) with h | h
      · exact h
      · exact absurd h h3.2
    exact ⟨iff_of_true rfl ⟨by omega, by omega, hup, hlow, hnum⟩,
      fun hlt => absurd hlt h1,
      fun _ hgt => absurd hgt h2,
      fun _ _ hc => absurd ⟨hup, hlow, hnum⟩ hc,
      fun hv => absurd hv (by simp)⟩

unseal String.anyAux in
/-- Witness for C4: the spec examples — "weak" is rejected as too short,
"alllowercase1" as missing an uppercase letter (one combined message), and
"Valid1234" is accepted. -/
theorem validatePasswordStrength_spec_witness :
    validatePasswordStrength "weak" =
      ⟨false, some "Password must be at least 8 characters"⟩ ∧
    validatePasswordStrength "alllowercase1" =
      ⟨false, some "Password must contain at least one uppercase letter, one lowercase letter, and one number"⟩ ∧
    (validatePasswordStrength "Valid1234").valid = true :=
  ⟨(validatePasswordStrength_spec "weak").2.1 (by decide),
   (validatePasswordStrength_spec "alllowercase1").2.2.2.1 (by decide) (by decide)
     (by decide),
   (validatePasswordStrength_spec "Valid1234").1.mpr
     ⟨by decide, by decide, by decide, by decide, by decide⟩⟩

unseal String.splitAux String.mapAux in
/-- Counterexample for C5 as stated: the claim asserts the format invariant
for every full-name input, but a name whose word starts with a non-letter
character defeats it — generateReferralCode of "4 Seasons" with draw 123456
is "4S123456", which does not match the regex (its first character is a
digit, so the letter block is empty and the remainder has 8 characters). -/
theorem generateReferralCode_format_cex :
    (100000 ≤ 123456 ∧ 123456 < 999999) ∧
    generateReferralCode "4 Seasons" 123456 = "4S123456" ∧
    matchesReferralFormat (generateReferralCode "4 Seasons" 123456) = false :=
  ⟨by decide, by decide, by decide⟩

/-- C5 (amended): whenever every word of the full name starts with an ASCII
letter (a character whose uppercasing lands in A–Z) — in particular for
ordinary alphabetic names — the generated code is the uppercased initials
of up to the first three words followed by the six decimal digits of the
random draw from [100000, 999999), and it matches the format regex. -/
theorem generateReferralCode_format (fullName : String) (r : Nat)
    (hletters : ∀ w ∈ fullName.split (· = ' '), ∀ c ∈ w.toList.take 1,
      isUpperAlpha (Char.toUpper c) = true)
    (hr1 : 100000 ≤ r) (hr2 : r < 999999) :
    (generateReferralCode fullName r).toList
        = initialsOf fullName ++ (Nat.repr r).toList ∧
    (initialsOf fullName).length ≤ 3 ∧
    (∀ c ∈ initialsOf fullName, isUpperAlpha c = true) ∧
    (Nat.repr r).toList.length = 6 ∧
    (∀ c ∈ (Nat.repr r).toList, isDigitChar c = true) ∧
    matchesReferralFormat (generateReferralCode fullName r) = true := by
  have hsplit : (generateReferralCode fullName r).toList
      = initialsOf fullName ++ (Nat.repr r).toList := by
    show (String.mk (initialsOf fullName) ++ Nat.repr r).data
        = initialsOf fullName ++ (Nat.repr r).data
    rw [String.data_append]
  have hlen3 : (initialsOf fullName).length ≤ 3 := by
    unfold initialsOf
    exact List.length_take_le 3 _
  have hupper : ∀ c ∈ initialsOf fullName, isUpperAlpha c = true := by
    intro c hc
    unfold initialsOf at hc
    have hc1 := List.mem_of_mem_take hc
    rcases List.mem_flatten.mp hc1 with ⟨l, hl, hcl⟩
    rcases List.mem_map.mp hl with ⟨w, hw, rfl⟩
    rcases List.mem_map.mp hcl with ⟨c0, hc0, rfl⟩
    exact hletters w hw c0 hc0
  have hbounds : 10 ^ 5 ≤ r ∧ r < 10 ^ (5 + 1) := by
    have e5 : (10:Nat) ^ 5 = 100000 := by norm_num
    have e6 : (10:Nat) ^ (5 + 1) = 1000000 := by norm_num
    omega
  have hdlen : (Nat.repr r).toList.length = 6 := by
    rw [repr_toList]
    exact decDigits_length 5 r hbounds.1 hbounds.2
  have hdigits : ∀ c ∈ (Nat.repr r).toList, isDigitChar c = true := by
    rw [repr_toList]
    intro c hc
    exact (decDigits_all r c hc).1
  have hnotupper : ∀ c ∈ (Nat.repr r).toList, isUpperAlpha c = false := by
    rw [repr_toList]
    intro c hc
    exact (decDigits_all r c hc).2
  have hdecomp := takeWhile_append_all isUpperAlpha (initialsOf fullName)
    ((Nat.repr r).toList) hupper
    (fun c hc => hnotupper c (List.mem_of_mem_take hc))
  refine ⟨hsplit, hlen3, hupper, hdlen, hdigits, ?_⟩
  unfold matchesReferralFormat
  rw [hsplit]
  simp only [hdecomp.1, hdecomp.2, hdlen]
  simp only [List.all_eq_true, Bool.and_eq_true, beq_self_eq_true, decide_eq_true_eq]
  exact ⟨⟨hlen3, trivial⟩, fun x hx => hdigits x hx⟩

unseal String.splitAux String.mapAux in
/-- Witness for C5 (amended): the name "Jo Do" with draw 123456 gives
"JD123456", which matches the format. -/
theorem generateReferralCode_format_witness :
    generateReferralCode "Jo Do" 123456 = "JD123456" ∧
    matchesReferralFormat "JD123456" = true := by
  have h := generateReferralCode_format "Jo Do" 123456 (by decide)
    (by decide) (by decide)
  have he : generateReferralCode "Jo Do" 123456 = "JD123456" := by decide
  exact ⟨he, by rw [← he]; exact h.2.2.2.2.2⟩

/-- C1: POST /refresh answers 401 NO_REFRESH_TOKEN without a cookie,
401 INVALID_REFRESH_TOKEN when verification fails, 401 SESSION_NOT_FOUND
when the token verifies but no session row stores that exact value — in
particular after logout deleted the session — and succeeds with 200 and a
freshly minted access token exactly when all three checks pass. -/
theorem refresh_error_spec :
    (∀ (db : DB) (now : Nat),
      (refreshHandler db now none).resp =
        .err 401 ⟨"NO_REFRESH_TOKEN", "Refresh token not found"⟩) ∧
    (∀ (db : DB) (now : Nat) (rt : TokenStr),
      verifyRefreshToken now rt = none →
      (refreshHandler db now (some rt)).resp =
        .err 401 ⟨"INVALID_REFRESH_TOKEN", "Invalid or expired refresh token"⟩) ∧
    (∀ (db : DB) (now : Nat) (rt : TokenStr) (p : JWTPayload),
      verifyRefreshToken now rt = some p →
      findSessionByToken db rt = none →
      (refreshHandler db now (some rt)).resp =
        .err 401 ⟨"SESSION_NOT_FOUND", "Session not found"⟩) ∧
    (∀ (db : DB) (now : Nat) (rt : TokenStr) (p : JWTPayload),
      verifyRefreshToken now rt = some p →
      (refreshHandler (logoutHandler db (some rt)) now (some rt)).resp =
        .err 401 ⟨"SESSION_NOT_FOUND", "Session not found"⟩) ∧
    (∀ (db : DB) (now : Nat) (rt : TokenStr) (p : JWTPayload) (s : Session),
      verifyRefreshToken now rt = some p →
      findSessionByToken db rt = some s →
      (refreshHandler db now (some rt)).resp =
        .ok (generateAccessToken now ⟨p.userId, p.email, p.role⟩)
          "Token refreshed successfully" ∧
      ((refreshHandler db now (some rt)).resp).status = 200) ∧
    (∀ (db : DB) (now : Nat) (cookie : Option TokenStr),
      (∃ tok msg, (refreshHandler db now cookie).resp = .ok tok msg) ↔
      (∃ rt p s, cookie = some rt ∧ verifyRefreshToken now rt = some p ∧
        findSessionByToken db rt = some s)) := by
  refine ⟨fun db now => rfl, ?_, ?_, ?_, ?_, ?_⟩
  · intro db now rt hv
    simp only [refreshHandler, hv]
  · intro db now rt p hv hs
    simp only [refreshHandler, hv, hs]
  · intro db now rt p hv
    have hs : findSessionByToken (logoutHandler db (some rt)) rt = none := by
      unfold findSessionByToken logoutHandler
      rw [List.find?_eq_none]
      intro s hsmem
      have := (List.mem_filter.mp hsmem).2
      simpa using this
    simp only [refreshHandler, hv, hs]
  · intro db now rt p s hv hs
    simp only [refreshHandler, hv, hs]
    exact ⟨trivial, rfl⟩
  · intro db now cookie
    constructor
    · rintro ⟨tok, msg, hok⟩
      match cookie with
      | none => simp [refreshHandler] at hok
      | some rt =>
        match hv : verifyRefreshToken now rt with
        | none => simp [refreshHandler, hv] at hok
        | some p =>
          match hs : findSessionByToken db rt with
          | none => simp [refreshHandler, hv, hs] at hok
          | some s => exact ⟨rt, p, s, rfl, hv, hs⟩
    · rintro ⟨rt, p, s, rfl, hv, hs⟩
      simp only [refreshHandler, hv, hs]
      exact ⟨_, _, rfl⟩

/-- Witness for C1: a concrete refresh token signed at time 0 for a user
u1; at time 100 it verifies; against an empty session store refresh fails
SESSION_NOT_FOUND, with a matching session row it succeeds 200, and after
logout with that cookie the same token is rejected SESSION_NOT_FOUND. -/
theorem refresh_error_spec_witness :
    (refreshHandler ⟨[], [], [], []⟩ 100 none).resp =
      .err 401 ⟨"NO_REFRESH_TOKEN", "Refresh token not found"⟩ ∧
    (refreshHandler ⟨[], [], [], []⟩ 100
        (some (.raw "garbage"))).resp =
      .err 401 ⟨"INVALID_REFRESH_TOKEN", "Invalid or expired refresh token"⟩ ∧
    (refreshHandler ⟨[], [], [], []⟩ 100
        (some (generateRefreshToken 0 ⟨"u1", "a@b.c", .channel_partner⟩))).resp =
      .err 401 ⟨"SESSION_NOT_FOUND", "Session not found"⟩ ∧
    (refreshHandler
        ⟨[], [⟨"s1", "u1", generateRefreshToken 0 ⟨"u1", "a@b.c", .channel_partner⟩,
            604800, none, none⟩], [], []⟩ 100
        (some (generateRefreshToken 0 ⟨"u1", "a@b.c", .channel_partner⟩))).resp =
      .ok (generateAccessToken 100 ⟨"u1", "a@b.c", .channel_partner⟩)
        "Token refreshed successfully" ∧
    (refreshHandler
        (logoutHandler
          ⟨[], [⟨"s1", "u1", generateRefreshToken 0 ⟨"u1", "a@b.c", .channel_partner⟩,
              604800, none, none⟩], [], []⟩
          (some (generateRefreshToken 0 ⟨"u1", "a@b.c", .channel_partner⟩))) 100
        (some (generateRefreshToken 0 ⟨"u1", "a@b.c", .channel_partner⟩))).resp =
      .err 401 ⟨"SESSION_NOT_FOUND", "Session not found"⟩ :=
  ⟨refresh_error_spec.1 ⟨[], [], [], []⟩ 100,
   refresh_error_spec.2.1 ⟨[], [], [], []⟩ 100 (.raw "garbage") (by decide),
   refresh_error_spec.2.2.1 ⟨[], [], [], []⟩ 100
     (generateRefreshToken 0 ⟨"u1", "a@b.c", .channel_partner⟩)
     ⟨"u1", "a@b.c", .channel_partner⟩ (by decide) (by decide),
   (refresh_error_spec.2.2.2.2.1 _ 100
     (generateRefreshToken 0 ⟨"u1", "a@b.c", .channel_partner⟩)
     ⟨"u1", "a@b.c", .channel_partner⟩
     ⟨"s1", "u1", generateRefreshToken 0 ⟨"u1", "a@b.c", .channel_partner⟩,
        604800, none, none⟩ (by decide) (by decide)).1,
   refresh_error_spec.2.2.2.1 _ 100
     (generateRefreshToken 0 ⟨"u1", "a@b.c", .channel_partner⟩)
     ⟨"u1", "a@b.c", .channel_partner⟩ (by decide)⟩

/-- C7: a successful POST /refresh only issues a new access token — the
database (hence every session row and the stored refresh-token value) is
returned unchanged in every case, and on success the only cookie set is the
accessToken cookie; the refreshToken cookie is never reset. -/
theorem refresh_frame_spec :
    (∀ (db : DB) (now : Nat) (cookie : Option TokenStr),
      (refreshHandler db now cookie).db = db) ∧
    (∀ (db : DB) (now : Nat) (cookie : Option TokenStr) (tok : TokenStr) (msg : String),
      (refreshHandler db now cookie).resp = .ok tok msg →
      (refreshHandler db now cookie).cookies =
        [⟨"accessToken", tok, ACCESS_TOKEN_EXPIRY⟩] ∧
      ∀ c ∈ (refreshHandler db now cookie).cookies, c.name ≠ "refreshToken") := by
  constructor
  · intro db now cookie
    match cookie with
    | none => rfl
    | some rt =>
      match hv : verifyRefreshToken now rt with
      | none => simp [refreshHandler, hv]
      | some p =>
        match hs : findSessionByToken db rt with
        | none => simp [refreshHandler, hv, hs]
        | some s => simp [refreshHandler, hv, hs]
  · intro db now cookie tok msg hok
    match cookie with
    | none => simp [refreshHandler] at hok
    | some rt =>
      match hv : verifyRefreshToken now rt with
      | none => simp [refreshHandler, hv] at hok
      | some p =>
        match hs : findSessionByToken db rt with
        | none => simp [refreshHandler, hv, hs] at hok
        | some s =>
          simp only [refreshHandler, hv, hs] at hok ⊢
          have htok : generateAccessToken now ⟨p.userId, p.email, p.role⟩ = tok := by
            cases hok
            rfl
          constructor
          · rw [htok]
          · intro c hc
            simp at hc
            rw [hc]
            simp

/-- Witness for C7: on the concrete successful refresh of the C1 witness,
the database is unchanged and exactly one accessToken cookie is set. -/
theorem refresh_frame_spec_witness :
    (refreshHandler
        ⟨[], [⟨"s1", "u1", generateRefreshToken 0 ⟨"u1", "a@b.c", .channel_partner⟩,
            604800, none, none⟩], [], []⟩ 100
        (some (generateRefreshToken 0 ⟨"u1", "a@b.c", .channel_partner⟩))).db =
      ⟨[], [⟨"s1", "u1", generateRefreshToken 0 ⟨"u1", "a@b.c", .channel_partner⟩,
          604800, none, none⟩], [], []⟩ ∧
    (refreshHandler
        ⟨[], [⟨"s1", "u1", generateRefreshToken 0 ⟨"u1", "a@b.c", .channel_partner⟩,
            604800, none, none⟩], [], []⟩ 100
        (some (generateRefreshToken 0 ⟨"u1", "a@b.c", .channel_partner⟩))).cookies =
      [⟨"accessToken", generateAccessToken 100 ⟨"u1", "a@b.c", .channel_partner⟩,
        ACCESS_TOKEN_EXPIRY⟩] :=
  ⟨refresh_frame_spec.1 _ 100 _,
   (refresh_frame_spec.2
     ⟨[], [⟨"s1", "u1", generateRefreshToken 0 ⟨"u1", "a@b.c", .channel_partner⟩,
         604800, none, none⟩], [], []⟩ 100
     (some (generateRefreshToken 0 ⟨"u1", "a@b.c", .channel_partner⟩))
     (generateAccessToken 100 ⟨"u1", "a@b.c", .channel_partner⟩)
     "Token refreshed successfully" (by decide)).1⟩

/-- C6: a login whose email matches no user and a login whose email matches
a user but whose password fails verification produce identical responses —
the same 401 status and the same INVALID_CREDENTIALS body — so the two
cases cannot be told apart. -/
theorem login_indistinguishable_spec (db : DB) (now1 now2 : Nat)
    (e1 p1 e2 p2 sid1 sid2 : String) (ip1 ua1 ip2 ua2 : Option String)
    (u : User)
    (h1 : findUserByEmail db e1 = none)
    (h2 : findUserByEmail db e2 = some u)
    (h3 : verifyPassword p2 u.passwordHash = false) :
    (loginHandler db now1 e1 p1 sid1 ip1 ua1).resp =
      (loginHandler db now2 e2 p2 sid2 ip2 ua2).resp ∧
    (loginHandler db now1 e1 p1 sid1 ip1 ua1).resp =
      .err 401 ⟨"INVALID_CREDENTIALS", "Invalid email or password"⟩ ∧
    ((loginHandler db now1 e1 p1 sid1 ip1 ua1).resp).status = 401 := by
  have ha : (loginHandler db now1 e1 p1 sid1 ip1 ua1).resp =
      .err 401 ⟨"INVALID_CREDENTIALS", "Invalid email or password"⟩ := by
    simp only [loginHandler, h1]
  have hb : (loginHandler db now2 e2 p2 sid2 ip2 ua2).resp =
      .err 401 ⟨"INVALID_CREDENTIALS", "Invalid email or password"⟩ := by
    simp only [loginHandler, h2, h3]
    rfl
  exact ⟨ha.trans hb.symm, ha, by rw [ha]; rfl⟩

/-- Witness for C6: against a store holding only the user a@b.c with
password Secret12, logging in as missing@x.com and logging in as a@b.c with
the wrong password produce the same INVALID_CREDENTIALS response. -/
theorem login_indistinguishable_spec_witness :
    (loginHandler
        ⟨[⟨"u1", "a@b.c", hashPassword "Secret12", "Jo Do", none,
            .channel_partner, none, true, false, none⟩], [], [], []⟩
        5 "missing@x.com" "whatever" "s1" none none).resp =
      (loginHandler
        ⟨[⟨"u1", "a@b.c", hashPassword "Secret12", "Jo Do", none,
            .channel_partner, none, true, false, none⟩], [], [], []⟩
        5 "a@b.c" "WrongPass9" "s2" none none).resp ∧
    (loginHandler
        ⟨[⟨"u1", "a@b.c", hashPassword "Secret12", "Jo Do", none,
            .channel_partner, none, true, false, none⟩], [], [], []⟩
        5 "missing@x.com" "whatever" "s1" none none).resp =
      .err 401 ⟨"INVALID_CREDENTIALS", "Invalid email or password"⟩ :=
  ⟨(login_indistinguishable_spec
      ⟨[⟨"u1", "a@b.c", hashPassword "Secret12", "Jo Do", none,
          .channel_partner, none, true, false, none⟩], [], [], []⟩
      5 5 "missing@x.com" "whatever" "a@b.c" "WrongPass9" "s1" "s2"
      none none none none
      ⟨"u1", "a@b.c", hashPassword "Secret12", "Jo Do", none,
          .channel_partner, none, true, false, none⟩
      (by decide) (by decide) (by decide)).1,
   (login_indistinguishable_spec
      ⟨[⟨"u1", "a@b.c", hashPassword "Secret12", "Jo Do", none,
          .channel_partner, none, true, false, none⟩], [], [], []⟩
      5 5 "missing@x.com" "whatever" "a@b.c" "WrongPass9" "s1" "s2"
      none none none none
      ⟨"u1", "a@b.c", hashPassword "Secret12", "Jo Do", none,
          .channel_partner, none, true, false, none⟩
      (by decide) (by decide) (by decide)).2.1⟩

/-- A user row for the C2 scenario: id u1, password Oldpass1. -/
def pwUser0 : User :=
  ⟨"u1", "a@b.c", hashPassword "Oldpass1", "Jo Do", none, .channel_partner,
    none, true, true, none⟩

/-- A session row owned by u1, present while u1 changes the password. -/
def pwSession0 : Session :=
  ⟨"s1", "u1", .raw "some-refresh-token", 604800, none, none⟩

/-- Store for the C2 scenario: the user and one of their sessions. -/
def pwDb0 : DB := ⟨[pwUser0], [pwSession0], [], []⟩

unseal String.anyAux in
/-- Counterexample for C2 as stated: a password change that succeeds
(current password verified, new password strong, new hash persisted) while
the request carries no refreshToken cookie — for instance a client
authenticating with the accessToken cookie alone — deletes nothing: the
session-deletion statement sits inside `if (refreshToken)`, so the caller's
session row survives, contradicting the claim that every session row of the
user is deleted. -/
theorem changePassword_keeps_sessions_cex :
    (changePasswordHandler pwDb0 ⟨"u1", "a@b.c", .channel_partner, true⟩
        ⟨"Oldpass1", "Newpass12"⟩ none).resp =
      .ok "Password changed successfully" ∧
    (changePasswordHandler pwDb0 ⟨"u1", "a@b.c", .channel_partner, true⟩
        ⟨"Oldpass1", "Newpass12"⟩ none).db.sessions = [pwSession0] ∧
    pwSession0.userId = "u1" :=
  ⟨by decide, by decide, by decide⟩

/-- C2 (amended): after a successful authenticated password change the new
hash is persisted and, provided the request carries a refreshToken cookie,
every session row belonging to that user is deleted (the calling session
included); when no refreshToken cookie accompanies the request the session
store is left untouched. -/
theorem changePassword_sessions_spec (db : DB) (user : AuthedUser)
    (body : ChangePasswordBody) (cookie : Option TokenStr) (msg : String)
    (hok : (changePasswordHandler db user body cookie).resp = .ok msg) :
    ((∃ t, cookie = some t) →
      (changePasswordHandler db user body cookie).db.sessions =
        db.sessions.filter (fun s => !(s.userId == user.id)) ∧
      ∀ s ∈ (changePasswordHandler db user body cookie).db.sessions,
        s.userId ≠ user.id) ∧
    (cookie = none →
      (changePasswordHandler db user body cookie).db.sessions = db.sessions) ∧
    (∀ u ∈ (changePasswordHandler db user body cookie).db.users,
      u.id = user.id → u.passwordHash = hashPassword body.newPassword) ∧
    (∃ dbUser, findUserById db user.id = some dbUser ∧
      verifyPassword body.currentPassword dbUser.passwordHash = true) ∧
    (validatePasswordStrength body.newPassword).valid = true := by
  match hfind : findUserById db user.id with
  | none => simp [changePasswordHandler, hfind] at hok
  | some dbUser =>
    match hvp : verifyPassword body.currentPassword dbUser.passwordHash with
    | false => simp [changePasswordHandler, hfind, hvp] at hok
    | true =>
      match hval : (validatePasswordStrength body.newPassword).valid with
      | false => simp [changePasswordHandler, hfind, hvp, hval] at hok
      | true =>
        refine ⟨?_, ?_, ?_, ⟨dbUser, rfl, hvp⟩, rfl⟩
        · rintro ⟨t, rfl⟩
          constructor
          · simp [changePasswordHandler, hfind, hvp, hval]
          · intro s hs
            simp only [changePasswordHandler, hfind, hvp, hval,
              Bool.not_true, Bool.false_eq_true, if_false] at hs
            have hmem := List.mem_filter.mp hs
            simpa using hmem.2
        · rintro rfl
          simp [changePasswordHandler, hfind, hvp, hval]
        · intro u hu hid
          have hu' : u ∈ db.users.map fun v =>
              if v.id == user.id then { v with passwordHash := hashPassword body.newPassword }
              else v := by
            cases cookie with
            | none =>
              simpa [changePasswordHandler, hfind, hvp, hval] using hu
            | some t =>
              simpa [changePasswordHandler, hfind, hvp, hval] using hu
          rcases List.mem_map.mp hu' with ⟨v, hv, rfl⟩
          by_cases hveq : (v.id == user.id) = true
          · simp [hveq]
          · rw [if_neg hveq] at hid ⊢
            rw [hid] at hveq
            simp at hveq

unseal String.anyAux in
/-- Witness for C2 (amended): the same scenario as the counterexample but
with the refreshToken cookie present — the session row of u1 is deleted and
the stored hash is the hash of the new password. -/
theorem changePassword_sessions_spec_witness :
    (changePasswordHandler pwDb0 ⟨"u1", "a@b.c", .channel_partner, true⟩
        ⟨"Oldpass1", "Newpass12"⟩ (some (.raw "some-refresh-token"))).db.sessions =
      [] ∧
    ∀ u ∈ (changePasswordHandler pwDb0 ⟨"u1", "a@b.c", .channel_partner, true⟩
        ⟨"Oldpass1", "Newpass12"⟩ (some (.raw "some-refresh-token"))).db.users,
      u.id = "u1" → u.passwordHash = hashPassword "Newpass12" := by
  have h := changePassword_sessions_spec pwDb0
    ⟨"u1", "a@b.c", .channel_partner, true⟩ ⟨"Oldpass1", "Newpass12"⟩
    (some (.raw "some-refresh-token")) "Password changed successfully"
    (by decide)
  refine ⟨?_, ?_⟩
  · rw [(h.1 ⟨_, rfl⟩).1]
    decide
  · intro u hu hid
    exact h.2.2.1 u hu hid

/-- A public lead submission carrying an explicitly supplied but empty
referral code. -/
def leadBodyEmptyCode : LeadBody :=
  ⟨"Jane Roe", none, "1234567890", some "", none, none⟩

unseal String.splitAux String.mapAux in
/-- Counterexample for C3 as stated: the claim promises that whenever a
referralCode is supplied and matches no active channel partner, the request
fails 400 INVALID_REFERRAL_CODE with no lead created. Supplying the empty
string is supplying a code that matches no user, yet the handler tests the
field with JavaScript truthiness, so it takes the no-code path: it answers
201 and creates an unassigned website-source lead. -/
theorem lead_public_empty_code_cex :
    leadBodyEmptyCode.referralCode = some "" ∧
    findPartnerByCode ⟨[], [], [], []⟩ "" = none ∧
    (leadPublicHandler ⟨[], [], [], []⟩ "L1" 0 leadBodyEmptyCode).resp ≠
      .err 400 ⟨"INVALID_REFERRAL_CODE", "Invalid or inactive referral code"⟩ ∧
    (leadPublicHandler ⟨[], [], [], []⟩ "L1" 0 leadBodyEmptyCode).resp =
      .created (buildPublicLead "L1" 0 leadBodyEmptyCode none none)
        "Lead submitted successfully! We will contact you soon." ∧
    (buildPublicLead "L1" 0 leadBodyEmptyCode none none).source = "website" ∧
    (leadPublicHandler ⟨[], [], [], []⟩ "L1" 0 leadBodyEmptyCode).db.leads.length = 1 :=
  ⟨by decide, by decide, by decide, by decide, by decide, by decide⟩

/-- C3 (amended): for every public lead submission whose referralCode field
is truthy (present and non-empty), the code is uppercased and matched
against active channel_partner users — 400 INVALID_REFERRAL_CODE and no
state change when none matches; when a partner matches and owns a paired
channel-partner record, the created lead is assigned to that record, the
partner's user id is stashed in the metadata, and source is referral; a
submission without a truthy code creates an unassigned lead with source
website and no metadata. Every created lead has status new. The
empty-string code counts as absent, not as an invalid code. -/
theorem lead_public_spec :
    (∀ (db : DB) (newLeadId : String) (now : Nat) (body : LeadBody),
      jsTruthy body.referralCode = true →
      findPartnerByCode db ((body.referralCode.getD "").toUpper) = none →
      (leadPublicHandler db newLeadId now body).resp =
        .err 400 ⟨"INVALID_REFERRAL_CODE", "Invalid or inactive referral code"⟩ ∧
      (leadPublicHandler db newLeadId now body).db = db) ∧
    (∀ (db : DB) (newLeadId : String) (now : Nat) (body : LeadBody)
        (u : User) (rec : ChannelPartnerRec),
      jsTruthy body.referralCode = true →
      findPartnerByCode db ((body.referralCode.getD "").toUpper) = some u →
      findChannelPartnerByUserId db u.id = some rec →
      (u.referralCode = some ((body.referralCode.getD "").toUpper) ∧
        u.role = Role.channel_partner ∧ u.isActive = true) ∧
      (leadPublicHandler db newLeadId now body).resp =
        .created (buildPublicLead newLeadId now body (some rec.id) (some u.id))
          "Lead submitted successfully! Your channel partner will contact you soon." ∧
      (rec.id ≠ "" →
        (buildPublicLead newLeadId now body (some rec.id) (some u.id)).assignedChannelPartnerId
          = some rec.id) ∧
      (buildPublicLead newLeadId now body (some rec.id) (some u.id)).metadata =
        some ⟨body.referralCode, some u.id, "website"⟩ ∧
      (buildPublicLead newLeadId now body (some rec.id) (some u.id)).status = "new" ∧
      (buildPublicLead newLeadId now body (some rec.id) (some u.id)).source = "referral" ∧
      (leadPublicHandler db newLeadId now body).db.leads =
        db.leads ++ [buildPublicLead newLeadId now body (some rec.id) (some u.id)]) ∧
    (∀ (db : DB) (newLeadId : String) (now : Nat) (body : LeadBody),
      jsTruthy body.referralCode = false →
      (leadPublicHandler db newLeadId now body).resp =
        .created (buildPublicLead newLeadId now body none none)
          "Lead submitted successfully! We will contact you soon." ∧
      (buildPublicLead newLeadId now body none none).status = "new" ∧
      (buildPublicLead newLeadId now body none none).source = "website" ∧
      (buildPublicLead newLeadId now body none none).assignedChannelPartnerId = none ∧
      (buildPublicLead newLeadId now body none none).metadata = none ∧
      (leadPublicHandler db newLeadId now body).db.leads =
        db.leads ++ [buildPublicLead newLeadId now body none none]) := by
  refine ⟨?_, ?_, ?_⟩
  · intro db newLeadId now body ht hnone
    constructor
    · simp [leadPublicHandler, ht, hnone]
    · simp [leadPublicHandler, ht, hnone]
  · intro db newLeadId now body u rec ht hu hrec
    have hp := List.find?_some hu
    simp only [Bool.and_eq_true, beq_iff_eq] at hp
    refine ⟨⟨hp.1.1, hp.1.2, hp.2⟩, ?_, ?_, ?_, rfl, ?_, ?_⟩
    · simp [leadPublicHandler, ht, hu, hrec]
    · intro hne
      simp only [buildPublicLead, orNull, jsTruthy]
      have : (rec.id == "") = false := by
        simpa using hne
      simp [this]
    · simp [buildPublicLead, ht]
    · simp [buildPublicLead, ht]
    · simp [leadPublicHandler, ht, hu, hrec]
  · intro db newLeadId now body hf
    refine ⟨?_, rfl, ?_, ?_, ?_, ?_⟩
    · simp [leadPublicHandler, hf]
    · simp [buildPublicLead, hf]
    · simp [buildPublicLead, orNull, jsTruthy]
    · simp [buildPublicLead, hf]
    · simp [leadPublicHandler, hf]

/-- An active channel-partner user holding referral code JD123456. -/
def leadPartnerUser : User :=
  ⟨"u1", "p@x.c", hashPassword "Secret12", "Jo Do", none, .channel_partner,
    some "JD123456", true, false, none⟩

/-- The channel-partner record paired with leadPartnerUser. -/
def leadPartnerRec : ChannelPartnerRec := ⟨"cp1", "u1", "active"⟩

/-- Store for the C3 witness: the partner user and their record. -/
def leadDb1 : DB := ⟨[leadPartnerUser], [], [leadPartnerRec], []⟩

/-- A submission with the partner code, lowercased by the client. -/
def leadBodyGood : LeadBody :=
  ⟨"Ann A", none, "1234567890", some "jd123456", some 500, none⟩

/-- A submission with no referral code at all. -/
def leadBodyNoCode : LeadBody := ⟨"Bob B", none, "1234567890", none, none, none⟩

unseal String.splitAux String.mapAux in
/-- Witness for C3 (amended): an unknown code fails 400; the partner code
(case-normalized) yields a referral-source lead assigned to record cp1 with
the partner user id in the metadata; a codeless submission yields an
unassigned website-source lead. -/
theorem lead_public_spec_witness :
    (leadPublicHandler ⟨[], [], [], []⟩ "L1" 0
        ⟨"Ann A", none, "1234567890", some "BAD999", none, none⟩).resp =
      .err 400 ⟨"INVALID_REFERRAL_CODE", "Invalid or inactive referral code"⟩ ∧
    (leadPublicHandler leadDb1 "L2" 7 leadBodyGood).resp =
      .created (buildPublicLead "L2" 7 leadBodyGood (some "cp1") (some "u1"))
        "Lead submitted successfully! Your channel partner will contact you soon." ∧
    (buildPublicLead "L2" 7 leadBodyGood (some "cp1") (some "u1")).source =
      "referral" ∧
    (leadPublicHandler leadDb1 "L3" 9 leadBodyNoCode).resp =
      .created (buildPublicLead "L3" 9 leadBodyNoCode none none)
        "Lead submitted successfully! We will contact you soon." :=
  ⟨(lead_public_spec.1 ⟨[], [], [], []⟩ "L1" 0
      ⟨"Ann A", none, "1234567890", some "BAD999", none, none⟩
      (by decide) (by decide)).1,
   (lead_public_spec.2.1 leadDb1 "L2" 7 leadBodyGood leadPartnerUser
      leadPartnerRec (by decide) (by decide) (by decide)).2.1,
   (lead_public_spec.2.1 leadDb1 "L2" 7 leadBodyGood leadPartnerUser
      leadPartnerRec (by decide) (by decide) (by decide)).2.2.2.2.2.1,
   (lead_public_spec.2.2 leadDb1 "L3" 9 leadBodyNoCode (by decide)).1⟩

instance : IsTotal Lead createdDesc :=
  ⟨fun a b => (Nat.le_total b.createdAt a.createdAt).imp id id⟩

instance : IsTrans Lead createdDesc :=
  ⟨fun _ _ _ hab hbc => Nat.le_trans hbc hab⟩

/-- C8: GET /leads gives a channel partner exactly the leads assigned to
their own channel-partner record — an empty 200 list, not an error, when no
record exists — and gives every other role all leads; in each case the
result is ordered newest-created-first. -/
theorem list_leads_spec :
    (∀ (db : DB) (user : AuthedUser),
      user.role = Role.channel_partner →
      findChannelPartnerByUserId db user.id = none →
      listLeadsHandler db user = .ok [] 0 ∧
      (listLeadsHandler db user).status = 200) ∧
    (∀ (db : DB) (user : AuthedUser) (rec : ChannelPartnerRec),
      user.role = Role.channel_partner →
      findChannelPartnerByUserId db user.id = some rec →
      listLeadsHandler db user =
        .ok (leadsByCreatedDesc (db.leads.filter fun l =>
              l.assignedChannelPartnerId == some rec.id))
          (leadsByCreatedDesc (db.leads.filter fun l =>
              l.assignedChannelPartnerId == some rec.id)).length ∧
      (∀ l, l ∈ leadsByCreatedDesc (db.leads.filter fun l =>
              l.assignedChannelPartnerId == some rec.id) ↔
        (l ∈ db.leads ∧ l.assignedChannelPartnerId = some rec.id)) ∧
      (leadsByCreatedDesc (db.leads.filter fun l =>
          l.assignedChannelPartnerId == some rec.id)).Pairwise createdDesc) ∧
    (∀ (db : DB) (user : AuthedUser),
      user.role ≠ Role.channel_partner →
      listLeadsHandler db user =
        .ok (leadsByCreatedDesc db.leads) (leadsByCreatedDesc db.leads).length ∧
      (leadsByCreatedDesc db.leads).Perm db.leads ∧
      (leadsByCreatedDesc db.leads).Pairwise createdDesc) := by
  refine ⟨?_, ?_, ?_⟩
  · intro db user hrole hnone
    have hb : (user.role == Role.channel_partner) = true := by
      rw [hrole]
      rfl
    constructor
    · simp [listLeadsHandler, hb, hnone]
    · simp [listLeadsHandler, hb, hnone]
      rfl
  · intro db user rec hrole hrec
    have hb : (user.role == Role.channel_partner) = true := by
      rw [hrole]
      rfl
    refine ⟨by simp [listLeadsHandler, hb, hrec], ?_, ?_⟩
    · intro l
      constructor
      · intro hl
        have hmem : l ∈ db.leads.filter fun l =>
            l.assignedChannelPartnerId == some rec.id :=
          (List.perm_insertionSort createdDesc _).mem_iff.mp hl
        have h2 := List.mem_filter.mp hmem
        exact ⟨h2.1, by simpa using h2.2⟩
      · intro ⟨hl, ha⟩
        apply (List.perm_insertionSort createdDesc _).mem_iff.mpr
        exact List.mem_filter.mpr ⟨hl, by simpa using ha⟩
    · exact List.sorted_insertionSort createdDesc _
  · intro db user hrole
    have hb : (user.role == Role.channel_partner) = false := by
      rcases h : user.role == Role.channel_partner
      · rfl
      · exact absurd (by simpa using h) hrole
    refine ⟨by simp [listLeadsHandler, hb], ?_, ?_⟩
    · exact List.perm_insertionSort createdDesc _
    · exact List.sorted_insertionSort createdDesc _

/-- A lead assigned to record cp1, created at time 5. -/
def leadA : Lead :=
  ⟨"l1", "Ann A", none, "1234567890", "new", "referral", some "cp1",
    none, none, none, 5⟩

/-- A lead assigned to record cp1, created later, at time 9. -/
def leadB : Lead :=
  ⟨"l2", "Bob B", none, "1234567890", "new", "referral", some "cp1",
    none, none, none, 9⟩

/-- A lead assigned to a different record cp2. -/
def leadC : Lead :=
  ⟨"l3", "Cyd C", none, "1234567890", "new", "website", some "cp2",
    none, none, none, 7⟩

/-- Store for the C8 witness: one channel-partner record and three leads,
two of them assigned to it, stored oldest-first. -/
def leadsDb2 : DB := ⟨[], [], [leadPartnerRec], [leadA, leadC, leadB]⟩

/-- Witness for C8: the channel partner u1 sees exactly their two leads,
newest first; a partner without a record gets the empty 200 list; an admin
sees all three leads, newest first. -/
theorem list_leads_spec_witness :
    listLeadsHandler leadsDb2 ⟨"u1", "p@x.c", .channel_partner, false⟩ =
      .ok [leadB, leadA] 2 ∧
    listLeadsHandler leadsDb2 ⟨"u9", "q@x.c", .channel_partner, false⟩ =
      .ok [] 0 ∧
    listLeadsHandler leadsDb2 ⟨"u2", "admin@x.c", .admin, false⟩ =
      .ok [leadB, leadC, leadA] 3 := by
  refine ⟨?_, ?_, ?_⟩
  · have h := (list_leads_spec.2.1 leadsDb2
      ⟨"u1", "p@x.c", .channel_partner, false⟩ leadPartnerRec rfl (by decide)).1
    rw [h]
    decide
  · exact (list_leads_spec.1 leadsDb2
      ⟨"u9", "q@x.c", .channel_partner, false⟩ rfl (by decide)).1
  · have h := (list_leads_spec.2.2 leadsDb2
      ⟨"u2", "admin@x.c", .admin, false⟩ (by decide)).1
    rw [h]
    decide

/-- A signup request with no explicit role, so the role resolves to
channel_partner and a referral code is generated. -/
def signupBody0 : SignupBody := ⟨"new@x.com", "Valid1234", "Jo Do", none, none⟩

unseal String.anyAux in
/-- Counterexample for C9 as stated: a successful channel-partner signup
does generate and store a referral code, but the 201 response's user
projection is the object literal with exactly the six fields id, email,
fullName, phone, role, emailVerified — no referralCode key exists in it,
contradicting the claim that the response projection contains the code. -/
theorem signup_response_no_referral_cex :
    signupBody0.role = none ∧
    (signupHandler ⟨[], [], [], []⟩ 0 signupBody0 (fun _ => 123456)
        "u1" "cp1" "s1" none none).resp =
      .created
        [("id", .s "u1"), ("email", .s "new@x.com"), ("fullName", .s "Jo Do"),
         ("phone", .os none), ("role", .r Role.channel_partner),
         ("emailVerified", .b false)]
        (generateAccessToken 0 ⟨"u1", "new@x.com", Role.channel_partner⟩)
        "Account created successfully!" ∧
    "referralCode" ∉
      ([("id", FieldVal.s "u1"), ("email", .s "new@x.com"),
        ("fullName", .s "Jo Do"), ("phone", .os none),
        ("role", .r Role.channel_partner),
        ("emailVerified", .b false)].map Prod.fst) :=
  ⟨rfl, by decide, by decide⟩

/-- C9 (amended): for every successful signup whose resolved role is
channel_partner, the generated referral code is persisted on the created
user row, but the 201 response's public user projection carries only the
keys id, email, fullName, phone, role, emailVerified — referralCode is not
among them (login and session responses expose it instead). -/
theorem signup_referral_spec :
    (∀ u : User,
      (signupUserProjection u).map Prod.fst =
        ["id", "email", "fullName", "phone", "role", "emailVerified"] ∧
      "referralCode" ∉ (signupUserProjection u).map Prod.fst) ∧
    (∀ (db : DB) (now : Nat) (body : SignupBody) (cand : Nat → Nat)
        (newUserId cpRecId sessionId : String) (ip ua : Option String),
      (body.role = some Role.channel_partner ∨ body.role = none) →
      (validatePasswordStrength body.password).valid = true →
      findUserByEmail db body.email = none →
      (signupHandler db now body cand newUserId cpRecId sessionId ip ua).resp =
        .created (signupUserProjection (signupNewUser db body cand newUserId))
          (generateAccessToken now ⟨newUserId, body.email, Role.channel_partner⟩)
          "Account created successfully!" ∧
      (signupNewUser db body cand newUserId).referralCode =
        some (pickReferralCode db.users body.fullName cand) ∧
      signupNewUser db body cand newUserId ∈
        (signupHandler db now body cand newUserId cpRecId sessionId ip ua).db.users ∧
      ((signupHandler db now body cand newUserId cpRecId sessionId ip ua).resp).status
        = 201) := by
  constructor
  · intro u
    refine ⟨rfl, ?_⟩
    show "referralCode" ∉ ["id", "email", "fullName", "phone", "role", "emailVerified"]
    decide
  · intro db now body cand newUserId cpRecId sessionId ip ua hrole hv he
    have hvb : (!(validatePasswordStrength body.password).valid) = false := by
      rw [hv]
      rfl
    have heb : (findUserByEmail db body.email).isSome = false := by
      rw [he]
      rfl
    have hgetd : body.role.getD Role.channel_partner = Role.channel_partner := by
      rcases hrole with h | h <;> simp [h]
    refine ⟨?_, ?_, ?_, ?_⟩
    · have hid : (signupNewUser db body cand newUserId).id = newUserId := rfl
      have hemail : (signupNewUser db body cand newUserId).email = body.email := rfl
      have hrole2 : (signupNewUser db body cand newUserId).role =
          Role.channel_partner := hgetd
      simp only [signupHandler, hvb, heb, Bool.false_eq_true, if_false,
        hid, hemail, hrole2]
    · rcases hrole with h | h <;> simp [signupNewUser, h]
    · simp only [signupHandler, hvb, heb, Bool.false_eq_true, if_false, hgetd]
      simp
    · simp only [signupHandler, hvb, heb, Bool.false_eq_true, if_false]
      rfl

unseal String.anyAux in
/-- Witness for C9 (amended): the concrete roleless signup of the
counterexample, via the amended theorem — the stored row carries the
generated code while the response projection has only the six keys. -/
theorem signup_referral_spec_witness :
    (signupNewUser ⟨[], [], [], []⟩ signupBody0 (fun _ => 123456) "u1").referralCode =
      some (pickReferralCode [] "Jo Do" (fun _ => 123456)) ∧
    (signupUserProjection
        (signupNewUser ⟨[], [], [], []⟩ signupBody0 (fun _ => 123456) "u1")).map
        Prod.fst =
      ["id", "email", "fullName", "phone", "role", "emailVerified"] ∧
    ((signupHandler ⟨[], [], [], []⟩ 0 signupBody0 (fun _ => 123456)
        "u1" "cp1" "s1" none none).resp).status = 201 :=
  ⟨(signup_referral_spec.2 ⟨[], [], [], []⟩ 0 signupBody0 (fun _ => 123456)
      "u1" "cp1" "s1" none none (Or.inr rfl) (by decide) (by decide)).2.1,
   (signup_referral_spec.1
      (signupNewUser ⟨[], [], [], []⟩ signupBody0 (fun _ => 123456) "u1")).1,
   (signup_referral_spec.2 ⟨[], [], [], []⟩ 0 signupBody0 (fun _ => 123456)
      "u1" "cp1" "s1" none none (Or.inr rfl) (by decide) (by decide)).2.2.2⟩

/-- C10: verifyAccessToken and verifyRefreshToken are extensionally equal —
both check the single JWT_SECRET and embed no token-type claim — so any
unexpired refresh token passes wherever an access token is expected:
placed in the accessToken cookie it authenticates requireAuth (hence every
protected route) and GET /session for its whole 7-day lifetime, regardless
of the 15-minute access-token expiry. -/
theorem token_verifiers_equal_spec :
    (∀ (now : Nat) (t : TokenStr),
      verifyAccessToken now t = verifyRefreshToken now t) ∧
    (∀ (db : DB) (t0 now : Nat) (p : JWTPayload) (u : User),
      now < t0 + REFRESH_TOKEN_EXPIRY →
      findUserById db p.userId = some u →
      u.isActive = true →
      requireAuth db now (some (generateRefreshToken t0 p)) =
        .ok ⟨u.id, u.email, u.role, u.emailVerified⟩ ∧
      getSessionHandler db now (some (generateRefreshToken t0 p)) =
        .ok (toUserView u)) := by
  constructor
  · intro now t
    cases t <;> rfl
  · intro db t0 now p u hlt hfind hact
    have hva : verifyAccessToken now (generateRefreshToken t0 p) = some p := by
      simp only [verifyAccessToken, generateRefreshToken]
      simp [hlt]
    have hvr : verifyRefreshToken now (generateRefreshToken t0 p) = some p := by
      simp only [verifyRefreshToken, generateRefreshToken]
      simp [hlt]
    constructor
    · simp only [requireAuth, hva, hfind, hact]
      rfl
    · simp only [getSessionHandler, hvr, hfind]

/-- Witness for C10: a 7-day refresh token signed at time 0 for user u1,
presented in the accessToken cookie at time 3600 — a full hour in, long
after a time-0 access token has expired (shown by the last conjunct) — is
accepted by both requireAuth and GET /session. -/
theorem token_verifiers_equal_spec_witness :
    verifyAccessToken 3600 (generateRefreshToken 0 ⟨"u1", "a@b.c", .admin⟩) =
      verifyRefreshToken 3600 (generateRefreshToken 0 ⟨"u1", "a@b.c", .admin⟩) ∧
    requireAuth
        ⟨[⟨"u1", "a@b.c", hashPassword "Secret12", "Jo Do", none, .admin,
            none, true, true, none⟩], [], [], []⟩ 3600
        (some (generateRefreshToken 0 ⟨"u1", "a@b.c", .admin⟩)) =
      .ok ⟨"u1", "a@b.c", .admin, true⟩ ∧
    getSessionHandler
        ⟨[⟨"u1", "a@b.c", hashPassword "Secret12", "Jo Do", none, .admin,
            none, true, true, none⟩], [], [], []⟩ 3600
        (some (generateRefreshToken 0 ⟨"u1", "a@b.c", .admin⟩)) =
      .ok (toUserView ⟨"u1", "a@b.c", hashPassword "Secret12", "Jo Do", none,
        .admin, none, true, true, none⟩) ∧
    verifyAccessToken 3600 (generateAccessToken 0 ⟨"u1", "a@b.c", .admin⟩) =
      none :=
  ⟨token_verifiers_equal_spec.1 3600
      (generateRefreshToken 0 ⟨"u1", "a@b.c", .admin⟩),
   (token_verifiers_equal_spec.2
      ⟨[⟨"u1", "a@b.c", hashPassword "Secret12", "Jo Do", none, .admin,
          none, true, true, none⟩], [], [], []⟩ 0 3600
      ⟨"u1", "a@b.c", .admin⟩
      ⟨"u1", "a@b.c", hashPassword "Secret12", "Jo Do", none, .admin,
          none, true, true, none⟩
      (by decide) (by decide) rfl).1,
   (token_verifiers_equal_spec.2
      ⟨[⟨"u1", "a@b.c", hashPassword "Secret12", "Jo Do", none, .admin,
          none, true, true, none⟩], [], [], []⟩ 0 3600
      ⟨"u1", "a@b.c", .admin⟩
      ⟨"u1", "a@b.c", hashPassword "Secret12", "Jo Do", none, .admin,
          none, true, true, none⟩
      (by decide) (by decide) rfl).2,
   by decide⟩

end RealEstateCRM
